import Mathlib

set_option maxRecDepth 100000
set_option maxHeartbeats 4000000

/-!
A shallow embedding of the VocalHost call-session orchestrator core
(backend/app/services/utils.py, booking.py, realtime_processing.py),
together with theorems settling the specification claims about it.

Machine strings are embedded as Lean `String` / `List Char`; Python
`datetime` values are embedded as explicit record types; the hidden
inputs of the Python code (the wall clock read by `datetime.now()` and
the booking database) are passed as explicit arguments.  Python
exceptions that escape a function are embedded as `none` / explicit
error outcomes.
-/

namespace VocalHost

/-! ## Python string primitives used by the source -/

/-- Python whitespace characters, as used by `str.strip()`. -/
def pyIsSpace (c : Char) : Bool :=
  c = ' ' || c = '\t' || c = '\n' || c = '\r' || c = '\x0b' || c = '\x0c'

/-- `str.strip()` on a character list. -/
def pyStripL (l : List Char) : List Char :=
  ((l.dropWhile pyIsSpace).reverse.dropWhile pyIsSpace).reverse

/-- `str.strip()` on a `String`. -/
def pyStrip (s : String) : String :=
  ⟨pyStripL s.data⟩

/-- Does `pat` occur at the very start of `l`? (Plain structural check.) -/
def strStartsWith : List Char → List Char → Bool
  | _, [] => true
  | [], _ :: _ => false
  | c :: cs, p :: ps => c = p && strStartsWith cs ps

/-- Scan for the first index `≥ i` at which `pat` starts in `hay`. -/
def findFromAux : List Char → List Char → Nat → Option Nat
  | [], pat, i => if strStartsWith [] pat then some i else none
  | c :: cs, pat, i =>
    if strStartsWith (c :: cs) pat then some i else findFromAux cs pat (i + 1)

/-- Python `hay.find(pat, start)`, returning `none` instead of `-1`. -/
def pyFind (hay pat : List Char) (start : Nat) : Option Nat :=
  findFromAux (hay.drop start) pat start

/-- Does `pat` occur anywhere in `hay`?  Python `pat in hay` on strings. -/
def strContains (hay pat : List Char) : Bool :=
  (pyFind hay pat 0).isSome

/-- Python `"x" in s` on `String`s. -/
def strContainsS (hay pat : String) : Bool :=
  strContains hay.data pat.data

/-- `"sep".join(items)`. -/
def pyJoin (sep : String) : List String → String
  | [] => ""
  | [x] => x
  | x :: xs => x ++ sep ++ pyJoin sep xs

/-- `s.lstrip("0")`. -/
def pyLstripZero (s : String) : String :=
  ⟨s.data.dropWhile (· = '0')⟩

/-! ## JSON values and `json.loads`

The source calls Python `json.loads` on small protocol payloads
(action blocks and the availability map).  We embed the JSON data
model and a recursive-descent reader for it; numbers are embedded as
integers, which covers every number the protocol can carry.  A parse
failure (Python `json.JSONDecodeError`) is embedded as `none`. -/

inductive JValue where
  | str : String → JValue
  | num : Int → JValue
  | bool : Bool → JValue
  | null : JValue
  | arr : List JValue → JValue
  | obj : List (String × JValue) → JValue

/-- Python truthiness of a decoded JSON value
(`None`, `False`, `0`, `""`, `[]`, `{}` are falsy). -/
def jTruthy : JValue → Bool
  | .str s => s != ""
  | .num n => n != 0
  | .bool b => b
  | .null => false
  | .arr xs => !xs.isEmpty
  | .obj fs => !fs.isEmpty

/-- Dict lookup (`d[k]` / `d.get(k)`): last binding wins, as in Python,
where a later duplicate key overwrites an earlier one. -/
def jGet (fields : List (String × JValue)) (k : String) : Option JValue :=
  (fields.reverse.find? (fun p => p.1 = k)).map (·.2)

/-- JSON whitespace. -/
def jsonWs (c : Char) : Bool :=
  c = ' ' || c = '\t' || c = '\n' || c = '\r'

def skipWs (l : List Char) : List Char :=
  l.dropWhile jsonWs

/-- Escape table for JSON string literals. -/
def jsonEsc : Char → Option Char
  | '"' => some '"'
  | '\\' => some '\\'
  | '/' => some '/'
  | 'b' => some '\x08'
  | 'f' => some '\x0c'
  | 'n' => some '\n'
  | 'r' => some '\r'
  | 't' => some '\t'
  | _ => none

def hexDigit (c : Char) : Option Nat :=
  if '0' ≤ c ∧ c ≤ '9' then some (c.toNat - '0'.toNat)
  else if 'a' ≤ c ∧ c ≤ 'f' then some (c.toNat - 'a'.toNat + 10)
  else if 'A' ≤ c ∧ c ≤ 'F' then some (c.toNat - 'A'.toNat + 10)
  else none

/-- Body of a JSON string literal, after the opening quote. -/
def readStr : Nat → List Char → List Char → Option (String × List Char)
  | 0, _, _ => none
  | _ + 1, _, [] => none
  | _ + 1, acc, '"' :: rest => some (⟨acc.reverse⟩, rest)
  | fuel + 1, acc, '\\' :: rest =>
    match rest with
    | [] => none
    | 'u' :: h1 :: h2 :: h3 :: h4 :: rest2 =>
      match hexDigit h1, hexDigit h2, hexDigit h3, hexDigit h4 with
      | some a, some b, some c, some d =>
        readStr fuel (Char.ofNat (((a * 16 + b) * 16 + c) * 16 + d) :: acc) rest2
      | _, _, _, _ => none
    | e :: rest2 =>
      match jsonEsc e with
      | some c => readStr fuel (c :: acc) rest2
      | none => none
  | fuel + 1, acc, c :: rest => readStr fuel (c :: acc) rest

/-- Digits of a JSON integer. -/
def readDigits (l : List Char) : Nat × List Char :=
  let ds := l.takeWhile (fun c => '0' ≤ c ∧ c ≤ '9')
  (ds.foldl (fun n c => n * 10 + (c.toNat - '0'.toNat)) 0, l.drop ds.length)

/-- Mode of the recursive-descent reader: one value, the members of an
object after its opening brace, or the elements of an array after its
opening bracket. -/
inductive JMode where
  | val : JMode
  | members : List (String × JValue) → JMode
  | elems : List JValue → JMode

/-- Fuel-bounded recursive descent over the JSON grammar; the three
modes of the reader are merged into one structurally recursive
function so that it reduces inside the kernel. -/
def readJ : Nat → JMode → List Char → Option (JValue × List Char)
  | 0, _, _ => none
  | fuel + 1, .val, l =>
    match skipWs l with
    | [] => none
    | '"' :: rest =>
      match readStr (rest.length + 1) [] rest with
      | some (s, rest2) => some (.str s, rest2)
      | none => none
    | '\x7b' :: rest =>
      match skipWs rest with
      | '\x7d' :: rest2 => some (.obj [], rest2)
      | _ => readJ fuel (.members []) rest
    | '[' :: rest =>
      match skipWs rest with
      | ']' :: rest2 => some (.arr [], rest2)
      | _ => readJ fuel (.elems []) rest
    | 't' :: 'r' :: 'u' :: 'e' :: rest => some (.bool true, rest)
    | 'f' :: 'a' :: 'l' :: 's' :: 'e' :: rest => some (.bool false, rest)
    | 'n' :: 'u' :: 'l' :: 'l' :: rest => some (.null, rest)
    | '-' :: c :: rest =>
      if '0' ≤ c ∧ c ≤ '9' then
        let (n, rest2) := readDigits (c :: rest)
        some (.num (-(n : Int)), rest2)
      else none
    | c :: rest =>
      if '0' ≤ c ∧ c ≤ '9' then
        let (n, rest2) := readDigits (c :: rest)
        some (.num (n : Int), rest2)
      else none
  | fuel + 1, .members acc, l =>
    match skipWs l with
    | '"' :: rest =>
      match readStr (rest.length + 1) [] rest with
      | some (k, rest2) =>
        match skipWs rest2 with
        | ':' :: rest3 =>
          match readJ fuel .val rest3 with
          | some (v, rest4) =>
            match skipWs rest4 with
            | ',' :: rest5 => readJ fuel (.members (acc ++ [(k, v)])) rest5
            | '\x7d' :: rest5 => some (.obj (acc ++ [(k, v)]), rest5)
            | _ => none
          | none => none
        | _ => none
      | none => none
    | _ => none
  | fuel + 1, .elems acc, l =>
    match readJ fuel .val l with
    | some (v, rest) =>
      match skipWs rest with
      | ',' :: rest2 => readJ fuel (.elems (acc ++ [v])) rest2
      | ']' :: rest2 => some (.arr (acc ++ [v]), rest2)
      | _ => none
    | none => none

/-- One JSON value. -/
def readJVal (fuel : Nat) (l : List Char) : Option (JValue × List Char) :=
  readJ fuel .val l

/-- Python `json.loads` on a character list: the whole input must be
one JSON value up to surrounding whitespace, else the decode fails. -/
def jsonLoadsL (l : List Char) : Option JValue :=
  match readJVal (l.length + 1) l with
  | some (v, rest) => if skipWs rest = [] then some v else none
  | none => none

/-- Python `json.loads` on a `String`. -/
def jsonLoads (s : String) : Option JValue :=
  jsonLoadsL s.data

/-! ## `datetime` values, `strptime` and `strftime`

The source uses `datetime.date`, `datetime.time`, `strptime` with the
formats `"%H:%M"`, `"%I:%M %p"`, `"%Y-%m-%d"`, and `strftime` with
`"%I:%M %p"` (followed by `.lstrip("0")`), `"%Y-%m-%d"` and `"%A"`.
A failed `strptime` (Python `ValueError`) is embedded as `none`. -/

structure PyTime where
  hour : Nat
  minute : Nat
deriving DecidableEq

structure PyDate where
  year : Nat
  month : Nat
  day : Nat
deriving DecidableEq

structure PyDateTime where
  date : PyDate
  time : PyTime
deriving DecidableEq

def pad2 (n : Nat) : String :=
  if n < 10 then "0" ++ toString n else toString n

def pad4 (n : Nat) : String :=
  if n < 10 then "000" ++ toString n
  else if n < 100 then "00" ++ toString n
  else if n < 1000 then "0" ++ toString n
  else toString n

/-- `t.strftime("%I:%M %p").lstrip("0")`: the pretty 12-hour slot label. -/
def fmtTime12 (t : PyTime) : String :=
  let hour12 := (t.hour + 11) % 12 + 1
  let ampm := if t.hour < 12 then "AM" else "PM"
  pyLstripZero (pad2 hour12 ++ ":" ++ pad2 t.minute ++ " " ++ ampm)

/-- `d.strftime("%Y-%m-%d")`. -/
def fmtDateYMD (d : PyDate) : String :=
  pad4 d.year ++ "-" ++ pad2 d.month ++ "-" ++ pad2 d.day

/-- Read one or two decimal digits greedily, as the `strptime`
field patterns do. -/
def read2Digits : List Char → Option (Nat × List Char)
  | [] => none
  | c :: rest =>
    if c.isDigit then
      match rest with
      | c2 :: rest2 =>
        if c2.isDigit then
          some ((c.toNat - '0'.toNat) * 10 + (c2.toNat - '0'.toNat), rest2)
        else some (c.toNat - '0'.toNat, rest)
      | [] => some (c.toNat - '0'.toNat, [])
    else none

/-- Read exactly four decimal digits (the `%Y` field). -/
def read4Digits : List Char → Option (Nat × List Char)
  | a :: b :: c :: d :: rest =>
    if a.isDigit && b.isDigit && c.isDigit && d.isDigit then
      some ((((a.toNat - '0'.toNat) * 10 + (b.toNat - '0'.toNat)) * 10 +
        (c.toNat - '0'.toNat)) * 10 + (d.toNat - '0'.toNat), rest)
    else none
  | _ => none

/-- `datetime.strptime(s, "%H:%M").time()`: 24-hour clock. -/
def strptimeHM (s : String) : Option PyTime :=
  match read2Digits s.data with
  | some (h, ':' :: rest) =>
    match read2Digits rest with
    | some (m, []) => if h ≤ 23 && m ≤ 59 then some ⟨h, m⟩ else none
    | _ => none
  | _ => none

/-- The `%p` field: `AM`/`PM`, case-insensitively, as Python lowercases
both the format and the input. -/
def readAmPm : List Char → Option (Bool × List Char)
  | a :: m :: rest =>
    if (a = 'A' || a = 'a') && (m = 'M' || m = 'm') then some (false, rest)
    else if (a = 'P' || a = 'p') && (m = 'M' || m = 'm') then some (true, rest)
    else none
  | _ => none

/-- `datetime.strptime(s, "%I:%M %p").time()`: 12-hour clock.  The
literal space in the format matches one or more whitespace characters. -/
def strptimeIMp (s : String) : Option PyTime :=
  match read2Digits s.data with
  | some (h, ':' :: rest) =>
    match read2Digits rest with
    | some (m, rest2) =>
      let rest3 := rest2.dropWhile pyIsSpace
      if rest2.length = rest3.length then none
      else
        match readAmPm rest3 with
        | some (pm, []) =>
          if 1 ≤ h && h ≤ 12 && m ≤ 59 then
            some ⟨if pm then (if h = 12 then 12 else h + 12)
                  else (if h = 12 then 0 else h), m⟩
          else none
        | _ => none
    | _ => none
  | _ => none

def isLeapYear (y : Nat) : Bool :=
  y % 4 = 0 && (y % 100 ≠ 0 || y % 400 = 0)

def daysInMonth (y m : Nat) : Nat :=
  if m = 2 then (if isLeapYear y then 29 else 28)
  else if m = 4 || m = 6 || m = 9 || m = 11 then 30
  else 31

/-- `datetime.strptime(s, "%Y-%m-%d").date()`. -/
def strptimeYMD (s : String) : Option PyDate :=
  match read4Digits s.data with
  | some (y, '-' :: rest) =>
    match read2Digits rest with
    | some (m, '-' :: rest2) =>
      match read2Digits rest2 with
      | some (d, []) =>
        if 1 ≤ y && 1 ≤ m && m ≤ 12 && 1 ≤ d && d ≤ daysInMonth y m then
          some ⟨y, m, d⟩
        else none
      | _ => none
    | _ => none
  | _ => none

/-- Python `date.weekday()`: 0 = Monday, …, 6 = Sunday (via Zeller's
congruence on the Gregorian calendar). -/
def pyWeekday (d : PyDate) : Nat :=
  let ym := if d.month < 3 then (d.year - 1, d.month + 12) else (d.year, d.month)
  let K := ym.1 % 100
  let J := ym.1 / 100
  let h := (d.day + (13 * (ym.2 + 1)) / 5 + K + K / 4 + J / 4 + 5 * J) % 7
  (h + 5) % 7

/-- `d.strftime("%A").lower()`. -/
def weekdayNameLower (d : PyDate) : String :=
  ["monday", "tuesday", "wednesday", "thursday", "friday", "saturday",
   "sunday"].getD (pyWeekday d) ""

/-- Total order key on dates, for the `Booking.date >= date.today()`
filter. -/
def dateKey (d : PyDate) : Nat :=
  (d.year * 100 + d.month) * 100 + d.day

/-! ## The booking store (`app/services/booking.py`)

The database of `Booking` rows is embedded as an explicit ordered list;
each query helper takes and returns the store it reads or mutates. -/

structure BookingRow where
  assistant_id : Nat
  conversation_id : Option Nat
  date : PyDate
  time : PyTime
  customer_name : String
  details : String
deriving DecidableEq

def bookingMatches (assistant_id : Nat) (date : PyDate) (time : PyTime)
    (r : BookingRow) : Bool :=
  r.assistant_id == assistant_id && r.date == date && r.time == time

/-- `load_booked_slots`: the dict of pretty slot labels to rows for one
assistant and date (embedded as an association list; a later duplicate
label shadows an earlier one exactly as in the Python dict build). -/
def load_booked_slots (store : List BookingRow) (assistant_id : Nat)
    (date : PyDate) : List (String × BookingRow) :=
  (store.filter (fun r => r.assistant_id == assistant_id && r.date == date)).map
    (fun r => (fmtTime12 r.time, r))

/-- `handle_booking`: insert a new booking row. -/
def handle_booking (store : List BookingRow) (assistant_id : Nat)
    (conversation_id : Option Nat) (date : PyDate) (time : PyTime)
    (customer_name : String) (details : String) :
    BookingRow × List BookingRow :=
  let row : BookingRow :=
    ⟨assistant_id, conversation_id, date, time, customer_name, details⟩
  (row, store ++ [row])

/-- `cancel_booking`: delete the first row matching the slot key, or
return `None` leaving the store untouched. -/
def cancel_booking (store : List BookingRow) (assistant_id : Nat)
    (date : PyDate) (time : PyTime) : Option BookingRow × List BookingRow :=
  match store.find? (bookingMatches assistant_id date time) with
  | none => (none, store)
  | some b => (some b, store.eraseP (bookingMatches assistant_id date time))

/-- Replace the first element satisfying `p` by `f` of it. -/
def updateFirst (p : α → Bool) (f : α → α) : List α → List α
  | [] => []
  | x :: xs => if p x then f x :: xs else x :: updateFirst p f xs

/-- `reschedule_booking`: move the first row matching the old slot key
to the new date and time, or return `None` leaving the store untouched. -/
def reschedule_booking (store : List BookingRow) (assistant_id : Nat)
    (old_date : PyDate) (old_time : PyTime) (new_date : PyDate)
    (new_time : PyTime) : Option BookingRow × List BookingRow :=
  match store.find? (bookingMatches assistant_id old_date old_time) with
  | none => (none, store)
  | some b =>
    (some { b with date := new_date, time := new_time },
     updateFirst (bookingMatches assistant_id old_date old_time)
       (fun r => { r with date := new_date, time := new_time }) store)

/-- One row of the caller-bookings context handed to the prompt. -/
structure UserBooking where
  date : String
  time : String
  name : String
  details : String
deriving DecidableEq

/-- `load_user_bookings`: future bookings for one assistant and
conversation, rendered for the prompt (`today` is the explicit clock). -/
def load_user_bookings (store : List BookingRow) (assistant_id : Nat)
    (conversation_id : Nat) (today : PyDate) : List UserBooking :=
  (store.filter (fun r =>
      r.assistant_id == assistant_id &&
      r.conversation_id == some conversation_id &&
      dateKey today ≤ dateKey r.date)).map
    (fun r => ⟨fmtDateYMD r.date, fmtTime12 r.time, r.customer_name, r.details⟩)

/-! ## `generate_time_slots` -/

/-- The default Monday-to-Friday availability map. -/
def defaultAvailableDays : List (String × JValue) :=
  [("monday", .bool true), ("tuesday", .bool true), ("wednesday", .bool true),
   ("thursday", .bool true), ("friday", .bool true), ("saturday", .bool false),
   ("sunday", .bool false)]

/-- `s.split(":")` on a character list. -/
def splitColon : List Char → List (List Char)
  | [] => [[]]
  | ':' :: rest => [] :: splitColon rest
  | c :: rest =>
    match splitColon rest with
    | [] => [[c]]
    | p :: ps => (c :: p) :: ps

/-- `sh, sm = map(int, s.split(":"))`: exactly two all-digit fields. -/
def splitHM (s : String) : Option (Nat × Nat) :=
  match splitColon s.data with
  | [a, b] =>
    if !a.isEmpty && a.all Char.isDigit && !b.isEmpty && b.all Char.isDigit then
      some (a.foldl (fun n c => n * 10 + (c.toNat - '0'.toNat)) 0,
            b.foldl (fun n c => n * 10 + (c.toNat - '0'.toNat)) 0)
    else none
  | _ => none

/-- The `while current < cutoff` slot loop, on minutes of the day. -/
def slotLoop (fuel : Nat) (current cutoff dur : Nat) : List String :=
  match fuel with
  | 0 => []
  | fuel + 1 =>
    if current < cutoff then
      fmtTime12 ⟨current / 60, current % 60⟩ ::
        slotLoop fuel (current + dur) cutoff dur
    else []

/-- `generate_time_slots`: pretty labels between the opening and closing
time at the configured duration, or `[]` when the business is closed on
`for_date`.  `none` embeds a raised `ValueError` (bad time strings or
out-of-range fields); a zero duration, on which the Python loop would
never terminate, is also embedded as `none`. -/
def generate_time_slots (start_time_24 end_time_24 : String)
    (duration_minutes : Nat) (available_days : Option (List (String × JValue)))
    (for_date : PyDate) : Option (List String) :=
  let avDays := available_days.getD defaultAvailableDays
  let weekday := weekdayNameLower for_date
  if ((jGet avDays weekday).map jTruthy).getD false = false then some []
  else
    match splitHM start_time_24, splitHM end_time_24 with
    | some (sh, sm), some (eh, em) =>
      if sh ≤ 23 && sm ≤ 59 && eh ≤ 23 && em ≤ 59 && duration_minutes ≠ 0 then
        let startMin := sh * 60 + sm
        let cutoff := eh * 60 + em
        some (slotLoop (cutoff + 1) startMin cutoff duration_minutes)
      else none
    | _, _ => none

/-! ## `generate_prompt` (the Context Assembler)

The hidden inputs of the Python function are made explicit: the wall
clock read by `datetime.now()` becomes the `now` argument and the
booking database behind `load_booked_slots` becomes the `store`
argument.  `none` embeds an exception raised out of the function. -/

/-- The `Assistant` configuration row, restricted to the columns the
orchestrator core reads. -/
structure Assistant where
  id : Nat
  user_id : Nat
  name : String
  business_name : String
  description : String
  start_time : String
  end_time : String
  booking_duration_minutes : Nat
  available_days : Option String
  voice_type : String
deriving DecidableEq

/-- Python truthiness of a nullable text column
(`None` and `""` are falsy). -/
def strOptTruthy : Option String -> Bool
  | none => false
  | some s => s != ""

/-- The f-string template of `generate_prompt` (utils.py lines 80-182),
with each interpolated expression abstracted as a parameter, in source
order. -/
def promptTemplate (pname pbiz pdesc current_date current_time
    start_12 end_12 durStr availStr bookedStr history_json
    bookings_section rag_section : String) : String :=
  "You are " ++
  pname ++
  ", a warm, conversational voice assistant for " ++
  pbiz ++
  ". " ++
  pdesc ++
  "\n" ++
  "\n" ++
  "            Your capabilities are :\n" ++
  "            - Greet callers and visitors with a friendly tone.\n" ++
  "            - Share business hours and basic service info.\n" ++
  "            - Book, reschedule, or cancel appointments.\n" ++
  "            - Politely take a message for anything outside your scope.\n" ++
  "\n" ++
  "            Today’s date is " ++
  current_date ++
  ", and the current time is " ++
  current_time ++
  ".\n" ++
  "\n" ++
  "            BUSINESS HOURS & SLOTS\n" ++
  "            - Open: " ++
  start_12 ++
  "\n" ++
  "            - Close: " ++
  end_12 ++
  "\n" ++
  "            - Appointments last " ++
  durStr ++
  " minutes.\n" ++
  "            - Available slots today: " ++
  availStr ++
  ".\n" ++
  "            - Booked slots today: " ++
  bookedStr ++
  ".\n" ++
  "\n" ++
  "            Conversation History\n" ++
  "            " ++
  history_json ++
  "\n" ++
  "\n" ++
  "            User\x27s Upcoming Appointments\n" ++
  "            " ++
  bookings_section ++
  "\n" ++
  "\n" ++
  "            Retrieved Documents\n" ++
  "            " ++
  rag_section ++
  "\n" ++
  "\n" ++
  "            Response Generation Guidelines:\n" ++
  "            - Keep responses brief and focused (30-60 words when possible). Summarize long information in a concise manner.\n" ++
  "            - Use simple sentence structures that are easy to follow when heard\n" ++
  "            - Avoid long lists, complex numbers, or detailed technical terms unless necessary\n" ++
  "            - Use natural transitions and conversational markers\n" ++
  "            **- Keep a human-like tone and be conversational. Add quirks etc to make it more engaging.**\n" ++
  "            - You are also provided with some documents that may contain answers to the user\x27s question. You need to deduce relevance between the user\x27s question and the documents. If the user\x27s question is not related to the documents, you should not use the documents to answer the question. Otherwise, you can use the documents to answer the question. \n" ++
  "            **- Give a human like touch to your responses, be quirky and engaging. Also do not read exactly from the contextual data or the documents.**\n" ++
  "\n" ++
  "            TIME-SLOT RULES\n" ++
  "            1. Never dump all slots at once.\n" ++
  "            2. If asked about the available slots or the operating hours:\n" ++
  "            - Remind them you’re open " ++
  start_12 ++
  "–" ++
  end_12 ++
  ".\n" ++
  "            - Note each appointment is " ++
  durStr ++
  " minutes.\n" ++
  "            - Ask the user to specify the time slot they want to book.\n" ++
  "            3. When they suggest a time:\n" ++
  "            - If available → proceed with booking.\n" ++
  "            - If taken → apologize and offer the nearest free slot.\n" ++
  "            4. If they insist on seeing every slot, explain personalizing time makes scheduling quicker.\n" ++
  "\n" ++
  "            **Booking workflow**:\n" ++
  "            1. When a user wants to book an appointment, first ask for their full name and the reason they want to visit.\n" ++
  "            2. Tell the user the operating hours of the business and tell them the minimum duration of the booking. **Do not send all the timeslots at once.**\n" ++
  "            3. Ask them to specify the time slot they want to book.\n" ++
  "            4. If the user is asking for a booking, and the slot is not available, say so and suggest an alternative time slot. Also do not reveal the names of the people who have booked the slots at any cost.\n" ++
  "            5. Help them select a convenient time.\n" ++
  "            6. When a booking is confirmed, end your response with only a fenced code block labeled `json`. For example:\n" ++
  "\n" ++
  "            ```json\n" ++
  "            \x7b\n" ++
  "            \"booking_confirmed\": \x7b\n" ++
  "                \"time\": \"HH:MM\",\n" ++
  "                \"date\": \"YYYY-MM-DD\",\n" ++
  "                \"name\": \"User Name\",\n" ++
  "                \"details\": \"Any additional booking details\"\n" ++
  "            \x7d\n" ++
  "            \x7d\n" ++
  "            7. Always collect the user\x27s name before finalizing a booking.\n" ++
  "\n" ++
  "            8. Do NOT include this JSON if no booking was confirmed.\n" ++
  "\n" ++
  "            9. Make your responses conversational and friendly.\n" ++
  "\n" ++
  "            10. Do not indulge in any conversation with the user that are unrelated the business name, description or the booking workflow.\n" ++
  "\n" ++
  "            11. Do not read the information from the documents or the contextual data exactly. Make your responses more engaging and human like.\n" ++
  "\n" ++
  "            Note: in the booking workflow, you do not need to ask for the user\x27s name again if it is already collected. Also do not gather all information at once—ask for the name first, then the time slot, then the reason for the visit.\n" ++
  "\n" ++
  "            **Cancellation workflow**:\n" ++
  "            1. When a user wants to cancel:\n" ++
  "            - Ask for the appointment time.\n" ++
  "            - Confirm that the time is booked for the user in the User\x27s Upcoming Appointments. If not, ask for the user\x27s name and the time of the appointment. If confirmed reiterate to the user that you are rescheduling their appointment from the old time.\n" ++
  "            - Confirm they wish to cancel that slot.\n" ++
  "            - End with a fenced JSON:\n" ++
  "                ```json\n" ++
  "                \x7b \"cancellation_confirmed\":\x7b \n" ++
  "                  \"time\": \"HH:MM\", \n" ++
  "                  \"name\": \"User Name\" \n" ++
  "                \x7d\n" ++
  "                \x7d\n" ++
  "                ```\n" ++
  "            \n" ++
  "            **Rescheduling workflow**:\n" ++
  "            - Ask for the current appointment time and user\x27s name.\n" ++
  "            - Confirm that the time is booked for the user in the User\x27s Upcoming Appointments. If not, ask for the user\x27s name and the time of the appointment. If confirmed reiterate to the user that you are rescheduling their appointment from the old time.\n" ++
  "            - Ask for the new desired time.\n" ++
  "            - If new slot is free → proceed, if not present then suggest the nearest free slot.\n" ++
  "            - End with a fenced JSON:\n" ++
  "                ```json\n" ++
  "                \x7b \"reschedule_confirmed\": \x7b\n" ++
  "                    \"old_time\": \"HH:MM\",\n" ++
  "                    \"new_time\": \"HH:MM\",\n" ++
  "                    \"name\": \"User Name\"\n" ++
  "                \x7d\n" ++
  "                \x7d\n" ++
  "            "

/-- `rag_section`: the optional retrieved-documents block. -/
def ragSectionOf (rag_chunks : Option (List String)) : String :=
  match rag_chunks with
  | some chunks =>
    if !chunks.isEmpty then
      "\n\nDOCUMENT CONTEXT (optional, may contain answers):\n" ++
        pyJoin "\n---\n" chunks
    else ""
  | none => ""

/-- `bookings_section`: the optional table of the caller upcoming
appointments. -/
def bookingsSectionOf (user_bookings : Option (List UserBooking)) : String :=
  match user_bookings with
  | some ubs =>
    if !ubs.isEmpty then
      let header := "| Date       | Time     | Name        | Details              |"
      let sep := "|------------|----------|-------------|----------------------|"
      let rows := ubs.map (fun b =>
        "| " ++ b.date ++ " | " ++ b.time ++ " | " ++ b.name ++ " | " ++
          b.details ++ " |")
      let table := pyJoin "\n" ([header, sep] ++ rows)
      "\n\nCALLER’S UPCOMING APPOINTMENTS:\n" ++ table ++ "\n"
    else ""
  | none => ""

/-- `", ".join(slots) if slots else "None"`. -/
def joinOrNone (slots : List String) : String :=
  if !slots.isEmpty then pyJoin ", " slots else "None"

/-- The slot partition computed by `generate_prompt` for one assistant,
store state and date: all slots, the booked ones and the available
ones, in that order. -/
def promptSlots (a : Assistant) (store : List BookingRow)
    (avFields : List (String × JValue)) (today : PyDate) :
    Option (List String × List String × List String) :=
  match generate_time_slots a.start_time a.end_time
      a.booking_duration_minutes (some avFields) today with
  | none => none
  | some all_slots =>
    let bookedKeys := (load_booked_slots store a.id today).map (fun p => p.1)
    some (all_slots,
      all_slots.filter (fun s => bookedKeys.contains s),
      all_slots.filter (fun s => !bookedKeys.contains s))

/-- `generate_prompt`: the instruction text for the next AI turn. -/
def generate_prompt (history_json : String) (assistant : Option Assistant)
    (rag_chunks : Option (List String))
    (user_bookings : Option (List UserBooking))
    (store : List BookingRow) (now : PyDateTime) : Option String :=
  match assistant with
  | none => some "You are an AI assistant. How can I help?"
  | some a =>
    if strOptTruthy a.available_days = false then
      some (promptTemplate a.name a.business_name a.description
        "Unknown" "Unknown" "Unknown" "Unknown"
        (toString a.booking_duration_minutes) "None" "None"
        history_json "Unknown" (ragSectionOf rag_chunks))
    else
      match jsonLoads (a.available_days.getD "") with
      | none => none
      | some availJson =>
        let avFieldsOpt : Option (Option (List (String × JValue))) :=
          match availJson with
          | .obj fs => some (some fs)
          | .null => some none
          | _ => none
        match avFieldsOpt with
        | none => none
        | some avFields =>
          let today := now.date
          match generate_time_slots a.start_time a.end_time
              a.booking_duration_minutes avFields today with
          | none => none
          | some all_slots =>
            let bookedKeys :=
              (load_booked_slots store a.id today).map (fun p => p.1)
            let booked_slots := all_slots.filter (fun s => bookedKeys.contains s)
            let available_slots :=
              all_slots.filter (fun s => !bookedKeys.contains s)
            match strptimeHM a.start_time, strptimeHM a.end_time with
            | some sdt, some edt =>
              some (promptTemplate a.name a.business_name a.description
                (fmtDateYMD now.date) (fmtTime12 now.time)
                (fmtTime12 sdt) (fmtTime12 edt)
                (toString a.booking_duration_minutes)
                (joinOrNone available_slots) (joinOrNone booked_slots)
                history_json (bookingsSectionOf user_bookings)
                (ragSectionOf rag_chunks))
            | _, _ => none

/-! ## `extract_booking_data` (the Action Extractor) -/

/-- The opening marker of the fenced action block. -/
def jsonStartTag : List Char := "```json".data

/-- The closing marker of the fenced action block. -/
def jsonEndTag : List Char := "```".data

/-- `extract_booking_data` on character lists: scan for the fenced
block, decode it, and strip it out; on a missing marker or a decode
failure return the input unchanged with no action. -/
def extractCore (response : List Char) : List Char × Option JValue :=
  let start_tag := jsonStartTag
  let end_tag := jsonEndTag
  match pyFind response start_tag 0 with
  | none => (response, none)
  | some start_idx =>
    match pyFind response end_tag (start_idx + start_tag.length) with
    | none => (response, none)
    | some end_idx =>
      let raw_json := pyStripL ((response.take end_idx).drop
        (start_idx + start_tag.length))
      match jsonLoadsL raw_json with
      | none => (response, none)
      | some booking_data =>
        (pyStripL (response.take start_idx ++
          response.drop (end_idx + end_tag.length)), some booking_data)

/-- `extract_booking_data` on `String`s, as called by the relay. -/
def extract_booking_data (response : String) : String × Option JValue :=
  let r := extractCore response.data
  (String.mk r.1, r.2)

/-! ## The Audio/Event Relay (`CallHandler._one_ai_turn`)

The engine-to-caller loop of `realtime_processing.py` is embedded as a
fold over the list of engine events.  The loop-local mutable variables
(`assistant_response`, `audio_stopped`) together with the shared
conversation memory and the booking store form the state; every
outbound message (to the caller socket, the engine socket, the memory
and the booking store) is recorded in an output trace, in send order.
An exception escaping the loop body (only `KeyError` is caught inside)
aborts the fold with an error flag, matching the `ValueError` from an
unparseable time field escaping `_one_ai_turn`. -/

/-- Modelled from the spec: `save_memory_entry` appends one
`(role, text)` entry to the append-only conversation history
(`app/services/memory.py` is not among the sources; spec section 3,
ConversationHistory, and section 6, Conversation memory). -/
def save_memory_entry (memory : List (String × String)) (role text : String) :
    List (String × String) :=
  memory ++ [(role, text)]

/-- A JSON string literal for the history dump. -/
def jsonStrLit (s : String) : String :=
  "\"" ++ String.mk (s.data.flatMap (fun c =>
    if c = '"' then ['\\', '"']
    else if c = '\\' then ['\\', '\\']
    else if c = '\n' then ['\\', 'n']
    else [c])) ++ "\""

/-- Modelled from the spec: `json.dumps(load_memory(...))`, the ordered
conversation entries rendered as a JSON array for the prompt assembler
(`app/services/memory.py` is not among the sources). -/
def historyDump (memory : List (String × String)) : String :=
  "[" ++ pyJoin ", " (memory.map (fun e =>
    "\x7b\"role\": " ++ jsonStrLit e.1 ++ ", \"content\": " ++
      jsonStrLit e.2 ++ "\x7d")) ++ "]"

/-- Fixed data of one call session: the assistant row, the conversation
id, the caller-stream correlation token, the retrieval collaborator and
the wall clock. -/
structure RelayConfig where
  assistant : Assistant
  conversation_id : Nat
  stream_sid : Option String
  rag : String → List String
  now : PyDateTime

/-- The engine events consumed by the loop, one constructor per
dispatched tag; `responseDone` carries the transcripts found under
the `response.output` items. -/
inductive EngineEvent where
  | inputTranscriptCompleted : String → EngineEvent
  | responseDone : List String → EngineEvent
  | sessionReady : EngineEvent
  | audioDelta : String → EngineEvent
  | contentDelta : String → EngineEvent
  | speechFinal : String → EngineEvent
  | speechStarted : String → Nat → EngineEvent
deriving DecidableEq

/-- One outbound effect of the loop, in send order. -/
inductive OutAction where
  | saveMemory : String → String → OutAction
  | sessionUpdate : String → OutAction
  | sendMedia : Option String → String → OutAction
  | sendClear : Option String → OutAction
  | sendTruncate : String → Nat → OutAction
  | createBookingCall : Nat → Option Nat → PyDate → PyTime → String →
      String → OutAction
  | cancelBookingCall : Nat → PyDate → PyTime → OutAction
  | rescheduleBookingCall : Nat → PyDate → PyTime → PyDate → PyTime →
      OutAction
deriving DecidableEq

/-- The mutable state threaded through the loop. -/
structure TurnState where
  memory : List (String × String)
  store : List BookingRow
  assistant_response : String
  audio_stopped : Bool
deriving DecidableEq

/-- The state at the top of `_one_ai_turn`. -/
def initState (memory : List (String × String)) (store : List BookingRow) :
    TurnState :=
  ⟨memory, store, "", false⟩

/-- Outcome of the body of the `try` block around the output items:
normal completion, a `KeyError` (caught by the `except` clause), or any
other exception (uncaught, escapes the loop). -/
inductive StepOutcome where
  | ok : StepOutcome
  | keyErr : StepOutcome
  | raised : StepOutcome
deriving DecidableEq

/-- The time-field handling of `_one_ai_turn`: `strptime` with
`"%I:%M %p"` first, falling back to `"%H:%M"` on `ValueError`; `none`
embeds the fallback `ValueError` escaping uncaught. -/
def parseActionTime (raw : String) : Option PyTime :=
  match strptimeIMp raw with
  | some t => some t
  | none => strptimeHM raw

/-- Python `key in value` on a decoded JSON value; `none` embeds the
`TypeError` raised when the value supports no membership test. -/
def pyContains (key : String) : JValue → Option Bool
  | .obj fields => some ((jGet fields key).isSome)
  | .arr xs => some (xs.any (fun v =>
      match v with
      | .str s => s == key
      | _ => false))
  | .str s => some (strContainsS s key)
  | .null => none
  | .num _ => none
  | .bool _ => none

/-- Python `str(value)` for a decoded JSON value, used only on the
degenerate path where a block carries a non-string name or details. -/
def pyStrOf : JValue → String
  | .str s => s
  | .num n => toString n
  | .bool b => if b then "True" else "False"
  | .null => "None"
  | .arr _ => "[...]"
  | .obj _ => "\x7b...\x7d"

/-- The date-field handling of the booking branch: a truthy `date`
field is parsed with `"%Y-%m-%d"`, a missing or falsy one defaults to
today; `none` embeds an uncaught `ValueError`/`TypeError`. -/
def parseActionDate (bf : List (String × JValue)) (today : PyDate) :
    Option PyDate :=
  match jGet bf "date" with
  | none => some today
  | some dv =>
    if jTruthy dv then
      match dv with
      | .str s => strptimeYMD s
      | _ => none
    else some today

/-- The `booking_confirmed` branch of `_one_ai_turn`. -/
def bookingBranch (cfg : RelayConfig) (st : TurnState) (b : JValue) :
    TurnState × List OutAction × StepOutcome :=
  match b with
  | .obj bf =>
    match parseActionDate bf cfg.now.date with
    | none => (st, [], .raised)
    | some date_obj =>
      match jGet bf "time" with
      | none => (st, [], .keyErr)
      | some (.str ts) =>
        match parseActionTime (pyStrip ts) with
        | none => (st, [], .raised)
        | some time_obj =>
          let name :=
            match jGet bf "name" with
            | some v => pyStrOf v
            | none => "Unknown"
          let details :=
            match jGet bf "details" with
            | some v => pyStrOf v
            | none => ""
          let res := handle_booking st.store cfg.assistant.id
            (some cfg.conversation_id) date_obj time_obj name details
          ({ st with store := res.2 },
           [.createBookingCall cfg.assistant.id (some cfg.conversation_id)
             date_obj time_obj name details], .ok)
      | some _ => (st, [], .raised)
  | _ => (st, [], .raised)

/-- The `cancellation_confirmed` branch of `_one_ai_turn`. -/
def cancelBranch (cfg : RelayConfig) (st : TurnState) (c : JValue) :
    TurnState × List OutAction × StepOutcome :=
  match c with
  | .obj cf =>
    let date_obj := cfg.now.date
    match jGet cf "time" with
    | none => (st, [], .keyErr)
    | some (.str ts) =>
      match parseActionTime (pyStrip ts) with
      | none => (st, [], .raised)
      | some time_obj =>
        let res := cancel_booking st.store cfg.assistant.id date_obj time_obj
        ({ st with store := res.2 },
         [.cancelBookingCall cfg.assistant.id date_obj time_obj], .ok)
    | some _ => (st, [], .raised)
  | _ => (st, [], .raised)

/-- The reschedule time handling: both fields through `"%I:%M %p"`, and
on a `ValueError` both through `"%H:%M"`; `none` embeds the second
`ValueError` escaping uncaught. -/
def parseReschedTimes (old_raw new_raw : String) : Option (PyTime × PyTime) :=
  match strptimeIMp old_raw, strptimeIMp new_raw with
  | some o, some n => some (o, n)
  | _, _ =>
    match strptimeHM old_raw, strptimeHM new_raw with
    | some o, some n => some (o, n)
    | _, _ => none

/-- The `reschedule_confirmed` branch of `_one_ai_turn`. -/
def rescheduleBranch (cfg : RelayConfig) (st : TurnState) (r : JValue) :
    TurnState × List OutAction × StepOutcome :=
  match r with
  | .obj rf =>
    let date_obj := cfg.now.date
    match jGet rf "old_time" with
    | none => (st, [], .keyErr)
    | some (.str oldS) =>
      match jGet rf "new_time" with
      | none => (st, [], .keyErr)
      | some (.str newS) =>
        match parseReschedTimes (pyStrip oldS) (pyStrip newS) with
        | none => (st, [], .raised)
        | some times =>
          let res := reschedule_booking st.store cfg.assistant.id date_obj
            times.1 date_obj times.2
          ({ st with store := res.2 },
           [.rescheduleBookingCall cfg.assistant.id date_obj times.1
             date_obj times.2], .ok)
      | some _ => (st, [], .raised)
    | some _ => (st, [], .raised)
  | _ => (st, [], .raised)

/-- Python `booking_data[key]` after a successful membership test:
`none` embeds the `TypeError` of subscripting a non-dict value. -/
def pySubscript (bd : JValue) (key : String) : Option JValue :=
  match bd with
  | .obj fields => jGet fields key
  | _ => none

/-- One output transcript: append the raw transcript to conversation
memory, extract the structured action and dispatch it. -/
def processTranscript (cfg : RelayConfig) (st : TurnState) (t : String) :
    TurnState × List OutAction × StepOutcome :=
  let st1 := { st with memory := save_memory_entry st.memory "assistant" t }
  let acts1 := [OutAction.saveMemory "assistant" t]
  match (extract_booking_data t).2 with
  | none => (st1, acts1, .ok)
  | some bd =>
    if jTruthy bd = false then (st1, acts1, .ok)
    else
      let dispatch :=
        match pyContains "booking_confirmed" bd with
        | none => (st1, [], StepOutcome.raised)
        | some true =>
          match pySubscript bd "booking_confirmed" with
          | some b => bookingBranch cfg st1 b
          | none => (st1, [], .raised)
        | some false =>
          match pyContains "cancellation_confirmed" bd with
          | none => (st1, [], .raised)
          | some true =>
            match pySubscript bd "cancellation_confirmed" with
            | some c => cancelBranch cfg st1 c
            | none => (st1, [], .raised)
          | some false =>
            match pyContains "reschedule_confirmed" bd with
            | none => (st1, [], .raised)
            | some true =>
              match pySubscript bd "reschedule_confirmed" with
              | some r => rescheduleBranch cfg st1 r
              | none => (st1, [], .raised)
            | some false => (st1, [], .ok)
      (dispatch.1, acts1 ++ dispatch.2.1, dispatch.2.2)

/-- The `for item in output` loop: a `KeyError` or an uncaught
exception from one item stops the remaining items. -/
def processTranscripts (cfg : RelayConfig) (st : TurnState) :
    List String → TurnState × List OutAction × StepOutcome
  | [] => (st, [], .ok)
  | t :: ts =>
    let r1 := processTranscript cfg st t
    match r1.2.2 with
    | .ok =>
      let r2 := processTranscripts cfg r1.1 ts
      (r2.1, r1.2.1 ++ r2.2.1, r2.2.2)
    | out => (r1.1, r1.2.1, out)

/-- The opening-marker test of the content-delta branch, on the
accumulated response text. -/
def suppressionHit (resp : String) : Bool :=
  strContainsS resp "\x7b\"booking_confirmed\":" ||
    strContainsS resp "booking_confirmed"

/-- One iteration of the engine-to-caller loop: dispatch one event,
returning the new state, the outputs sent, and whether an uncaught
exception escaped the loop body. -/
def processEvent (cfg : RelayConfig) (st : TurnState) :
    EngineEvent → TurnState × List OutAction × Bool
  | .inputTranscriptCompleted final =>
    if final != "" then
      let mem2 := save_memory_entry st.memory "user" final
      let rag_chunks := cfg.rag final
      let user_bookings := load_user_bookings st.store cfg.assistant.id
        cfg.conversation_id cfg.now.date
      match generate_prompt (historyDump mem2) (some cfg.assistant)
          (if !rag_chunks.isEmpty then some rag_chunks else none)
          (some user_bookings) st.store cfg.now with
      | some p =>
        ({ st with memory := mem2 },
         [.saveMemory "user" final, .sessionUpdate p], false)
      | none => ({ st with memory := mem2 }, [.saveMemory "user" final], true)
    else (st, [], false)
  | .responseDone ts =>
    let r := processTranscripts cfg st ts
    (r.1, r.2.1, r.2.2 == .raised)
  | .sessionReady => (st, [], false)
  | .audioDelta delta =>
    if delta != "" && !st.audio_stopped then
      (st, [.sendMedia cfg.stream_sid delta], false)
    else (st, [], false)
  | .contentDelta delta =>
    let resp2 := st.assistant_response ++ delta
    if !st.audio_stopped &&
        (strContainsS delta "\x7b" || strContainsS delta "\x7d") &&
        suppressionHit resp2 then
      ({ st with assistant_response := resp2, audio_stopped := true },
       [.sendClear cfg.stream_sid], false)
    else ({ st with assistant_response := resp2 }, [], false)
  | .speechFinal txt =>
    if txt != "" then
      ({ st with memory := save_memory_entry st.memory "user" txt },
       [.saveMemory "user" txt], false)
    else (st, [], false)
  | .speechStarted item_id audio_start_ms =>
    (st, [.sendTruncate item_id audio_start_ms, .sendClear cfg.stream_sid],
     false)

/-- The whole engine-to-caller loop over a list of events: an uncaught
exception aborts it, leaving the remaining events unprocessed. -/
def processEvents (cfg : RelayConfig) (st : TurnState) :
    List EngineEvent → TurnState × List OutAction × Bool
  | [] => (st, [], false)
  | e :: es =>
    let r1 := processEvent cfg st e
    if r1.2.2 then (r1.1, r1.2.1, true)
    else
      let r2 := processEvents cfg r1.1 es
      (r2.1, r1.2.1 ++ r2.2.1, r2.2.2)

/-- The output trace of a run. -/
def relayTrace (cfg : RelayConfig) (st : TurnState)
    (es : List EngineEvent) : List OutAction :=
  (processEvents cfg st es).2.1

/-! ## Concrete fixtures used by the claim theorems -/

/-- A demo assistant: open 09:00 to 17:00, 30-minute slots, Monday
enabled in the availability map. -/
def demoAssistant : Assistant :=
  { id := 1, user_id := 1, name := "Ada", business_name := "Acme Clinic",
    description := "A clinic.", start_time := "09:00", end_time := "17:00",
    booking_duration_minutes := 30,
    available_days := some "\x7b\"monday\": true, \"tuesday\": true, \"wednesday\": true, \"thursday\": true, \"friday\": true, \"saturday\": false, \"sunday\": false\x7d",
    voice_type := "female" }

/-- The availability map of `demoAssistant`, decoded. -/
def demoAvailFields : List (String × JValue) :=
  [("monday", .bool true), ("tuesday", .bool true), ("wednesday", .bool true),
   ("thursday", .bool true), ("friday", .bool true), ("saturday", .bool false),
   ("sunday", .bool false)]

/-- 2025-03-10 is a Monday; the clock reads 10:00. -/
def demoNow : PyDateTime := ⟨⟨2025, 3, 10⟩, ⟨10, 0⟩⟩

/-- A demo session configuration with no retrieved documents. -/
def demoCfg : RelayConfig :=
  ⟨demoAssistant, 7, some "SID", fun _ => [], demoNow⟩

/-- A fresh turn state over empty memory and an empty store. -/
def demoState : TurnState := initState [] []

/-- The end-to-end scenario 2 transcript: narration followed by a
fenced `booking_confirmed` block. -/
def scenario2Text : String :=
  "See you then!\n```json\n\x7b\"booking_confirmed\":\x7b\"time\":\"14:00\",\"date\":\"2025-03-10\",\"name\":\"Alex\",\"details\":\"checkup\"\x7d\x7d\n```"

/-- The decoded action block of scenario 2. -/
def scenario2Json : JValue :=
  .obj [("booking_confirmed",
    .obj [("time", .str "14:00"), ("date", .str "2025-03-10"),
          ("name", .str "Alex"), ("details", .str "checkup")])]

/-- A transcript whose action block carries a time string that parses
under neither accepted encoding. -/
def badTimeText : String :=
  "Ok!\n```json\n\x7b\"booking_confirmed\":\x7b\"time\":\"noon\"\x7d\x7d\n```"

/-- A store holding one booking at 14:00 on 2025-03-10 for assistant 1. -/
def store14 : List BookingRow :=
  [⟨1, some 7, ⟨2025, 3, 10⟩, ⟨14, 0⟩, "Bob", "flu"⟩]

/-- Is an output a create-booking call? -/
def isCreateBookingCall : OutAction → Bool
  | .createBookingCall _ _ _ _ _ _ => true
  | _ => false

/-! ## Lemmas about the marker scan -/

theorem strStartsWith_decomp {xs pat : List Char}
    (h : strStartsWith xs pat = true) : xs = pat ++ xs.drop pat.length := by
  induction pat generalizing xs with
  | nil => simp
  | cons p ps ih =>
    cases xs with
    | nil => simp [strStartsWith] at h
    | cons c cs =>
      simp only [strStartsWith, Bool.and_eq_true, decide_eq_true_eq] at h
      obtain ⟨h1, h2⟩ := h
      subst h1
      simpa [List.drop_succ_cons] using congrArg (c :: ·) (ih h2)

theorem strStartsWith_length {xs pat : List Char}
    (h : strStartsWith xs pat = true) : pat.length ≤ xs.length := by
  have := congrArg List.length (strStartsWith_decomp h)
  simp at this
  omega

theorem findFromAux_some {l pat : List Char} {i j : Nat}
    (h : findFromAux l pat i = some j) :
    i ≤ j ∧ strStartsWith (l.drop (j - i)) pat = true := by
  induction l generalizing i with
  | nil =>
    unfold findFromAux at h
    by_cases hs : strStartsWith [] pat = true
    · simp [hs] at h
      subst h
      simpa using hs
    · simp [hs] at h
  | cons c cs ih =>
    unfold findFromAux at h
    by_cases hs : strStartsWith (c :: cs) pat = true
    · simp [hs] at h
      subst h
      simpa using hs
    · simp [hs] at h
      obtain ⟨h1, h2⟩ := ih h
      refine ⟨by omega, ?_⟩
      have hj : j - i = (j - (i + 1)) + 1 := by omega
      rw [hj, List.drop_succ_cons]
      exact h2

theorem pyFind_some {hay pat : List Char} {start j : Nat}
    (h : pyFind hay pat start = some j) :
    start ≤ j ∧ strStartsWith (hay.drop j) pat = true := by
  unfold pyFind at h
  obtain ⟨h1, h2⟩ := findFromAux_some h
  refine ⟨h1, ?_⟩
  rw [List.drop_drop] at h2
  have : start + (j - start) = j := by omega
  rwa [this] at h2

theorem pyFind_decomp {hay pat : List Char} {start j : Nat}
    (h : pyFind hay pat start = some j) :
    hay = hay.take j ++ pat ++ hay.drop (j + pat.length) := by
  obtain ⟨-, hs⟩ := pyFind_some h
  have hd := strStartsWith_decomp hs
  rw [List.drop_drop] at hd
  conv_lhs => rw [← List.take_append_drop j hay, hd]
  simp [List.append_assoc]

theorem pyFind_lt_length {hay pat : List Char} {start j : Nat}
    (h : pyFind hay pat start = some j) (hpat : pat ≠ []) : j < hay.length := by
  obtain ⟨-, hs⟩ := pyFind_some h
  have hlen := strStartsWith_length hs
  have : 1 ≤ pat.length := by
    cases pat with
    | nil => exact absurd rfl hpat
    | cons _ _ => simp
  have := List.length_drop j hay
  omega

/-! ## Claim theorems -/

/-- Claim C10: for every slot key `(assistant_id, date, time)` with no
matching booking in the store, `cancel_booking` and
`reschedule_booking` both return `None` and leave the booking store
completely unchanged. -/
theorem claim_C10_failed_mutation_atomic
    (store : List BookingRow) (assistant_id : Nat) (date : PyDate)
    (time : PyTime) (new_date : PyDate) (new_time : PyTime)
    (h : ∀ b ∈ store, bookingMatches assistant_id date time b = false) :
    cancel_booking store assistant_id date time = (none, store) ∧
      reschedule_booking store assistant_id date time new_date new_time =
        (none, store) := by
  have hfind : store.find? (bookingMatches assistant_id date time) = none := by
    rw [List.find?_eq_none]
    intro x hx
    simp [h x hx]
  constructor
  · unfold cancel_booking
    rw [hfind]
  · unfold reschedule_booking
    rw [hfind]

/-- Witness for C10 at a concrete store and key: the store holds one
booking at 14:00, and cancelling or rescheduling 09:30 returns `None`
without touching the store. -/
theorem claim_C10_witness :
    cancel_booking store14 1 ⟨2025, 3, 10⟩ ⟨9, 30⟩ = (none, store14) ∧
      reschedule_booking store14 1 ⟨2025, 3, 10⟩ ⟨9, 30⟩ ⟨2025, 3, 10⟩
        ⟨11, 0⟩ = (none, store14) :=
  claim_C10_failed_mutation_atomic store14 1 ⟨2025, 3, 10⟩ ⟨9, 30⟩
    ⟨2025, 3, 10⟩ ⟨11, 0⟩ (by decide)

/-- Claim C7, counterexample: the instruction text produced by
`generate_prompt` depends on the wall clock, a hidden input the claim
does not fix — two calls with identical history, configuration,
snippets, bookings and store state but clock readings one minute apart
yield different instruction text. -/
theorem claim_C7_counterexample :
    generate_prompt "[]" (some demoAssistant) none none []
        ⟨⟨2025, 3, 10⟩, ⟨10, 0⟩⟩ ≠
      generate_prompt "[]" (some demoAssistant) none none []
        ⟨⟨2025, 3, 10⟩, ⟨10, 1⟩⟩ := by
  decide

/-- Claim C7, amended: `assemble` is deterministic in its declared
inputs together with the clock reading it takes — two calls with the
same history, configuration, snippets, bookings, store state and the
same `datetime.now()` reading yield identical instruction text. -/
theorem claim_C7_deterministic
    (history_json : String) (assistant : Option Assistant)
    (rag_chunks : Option (List String))
    (user_bookings : Option (List UserBooking)) (store : List BookingRow)
    (now₁ now₂ : PyDateTime) (h : now₁ = now₂) :
    generate_prompt history_json assistant rag_chunks user_bookings store
        now₁ =
      generate_prompt history_json assistant rag_chunks user_bookings store
        now₂ := by
  rw [h]

/-- Witness for the amended C7 at concrete inputs. -/
theorem claim_C7_witness :
    generate_prompt "[]" (some demoAssistant) none none [] demoNow =
      generate_prompt "[]" (some demoAssistant) none none [] demoNow :=
  claim_C7_deterministic "[]" (some demoAssistant) none none [] demoNow
    demoNow rfl

/-- Claim C3: for every input whose fenced block is malformed or absent
(no opening marker; an opening marker with no matching closing marker;
or content between the markers that fails to decode as JSON),
`extract_booking_data` returns the original text unchanged and no
action; the embedding is a total function, so no exception crosses this
boundary. -/
theorem claim_C3_malformed_unchanged :
    (∀ r : List Char, pyFind r jsonStartTag 0 = none →
      extractCore r = (r, none)) ∧
    (∀ (r : List Char) (i : Nat), pyFind r jsonStartTag 0 = some i →
      pyFind r jsonEndTag (i + jsonStartTag.length) = none →
      extractCore r = (r, none)) ∧
    (∀ (r : List Char) (i j : Nat), pyFind r jsonStartTag 0 = some i →
      pyFind r jsonEndTag (i + jsonStartTag.length) = some j →
      jsonLoadsL (pyStripL ((r.take j).drop (i + jsonStartTag.length))) =
        none →
      extractCore r = (r, none)) := by
  refine ⟨fun r h => ?_, fun r i h1 h2 => ?_, fun r i j h1 h2 h3 => ?_⟩
  · simp [extractCore, h]
  · simp [extractCore, h1, h2]
  · simp [extractCore, h1, h2, h3]

/-- Witness for C3 on three concrete inputs: no marker at all, an
opening marker with no closing marker, and undecodable content between
the markers. -/
theorem claim_C3_witness :
    extractCore "no marker here".data = ("no marker here".data, none) ∧
      extractCore "a ```json b".data = ("a ```json b".data, none) ∧
      extractCore "x ```json notjson``` y".data =
        ("x ```json notjson``` y".data, none) :=
  ⟨claim_C3_malformed_unchanged.1 "no marker here".data rfl,
   claim_C3_malformed_unchanged.2.1 "a ```json b".data 2 rfl rfl,
   claim_C3_malformed_unchanged.2.2 "x ```json notjson``` y".data 2 17
     rfl rfl rfl⟩

/-- Claim C2: whenever the scan finds the opening marker, then the
closing marker, and the stripped content between them decodes as JSON,
the input splits as narration, block and trailing text, and
`extract_booking_data` returns the input with the whole fenced block
removed (outer whitespace trimmed) together with the decoded action;
on the end-to-end scenario 2 transcript it returns the cleaned text
`"See you then!"` with the four-field `booking_confirmed` action, and
the relay then issues exactly one create-booking call, with date
2025-03-10 and time 14:00. -/
theorem claim_C2_extract_well_formed :
    (∀ (response : List Char) (i j : Nat) (v : JValue),
      pyFind response jsonStartTag 0 = some i →
      pyFind response jsonEndTag (i + jsonStartTag.length) = some j →
      jsonLoadsL (pyStripL ((response.take j).drop
        (i + jsonStartTag.length))) = some v →
      ∃ pre mid post,
        response = pre ++ jsonStartTag ++ mid ++ jsonEndTag ++ post ∧
          extractCore response = (pyStripL (pre ++ post), some v)) ∧
    extract_booking_data scenario2Text = ("See you then!", some scenario2Json) ∧
    (relayTrace demoCfg demoState
      [.responseDone [scenario2Text]]).countP isCreateBookingCall = 1 ∧
    OutAction.createBookingCall 1 (some 7) ⟨2025, 3, 10⟩ ⟨14, 0⟩ "Alex"
        "checkup" ∈
      relayTrace demoCfg demoState [.responseDone [scenario2Text]] := by
  refine ⟨fun response i j v h1 h2 h3 => ?_, ?_, ?_, ?_⟩
  · have hij : i + jsonStartTag.length ≤ j := (pyFind_some h2).1
    have hjlt : j < response.length := pyFind_lt_length h2 (by decide)
    have hd1 := pyFind_decomp h1
    have hd2 := pyFind_decomp h2
    have htakelen : (response.take j).length = j := by
      rw [List.length_take]
      omega
    have hST : jsonStartTag.length = 7 := rfl
    have hET : jsonEndTag.length = 3 := rfl
    have e1 : List.drop (i + jsonStartTag.length)
        ((response.take j ++ jsonEndTag) ++
          response.drop (j + jsonEndTag.length)) =
        List.drop (i + jsonStartTag.length) (response.take j ++ jsonEndTag) ++
          response.drop (j + jsonEndTag.length) :=
      List.drop_append_of_le_length (by
        rw [List.length_append, htakelen, hET]
        omega)
    have e2 : List.drop (i + jsonStartTag.length)
        (response.take j ++ jsonEndTag) =
        (response.take j).drop (i + jsonStartTag.length) ++ jsonEndTag :=
      List.drop_append_of_le_length (by rw [htakelen]; omega)
    have hmid : response.drop (i + jsonStartTag.length) =
        (response.take j).drop (i + jsonStartTag.length) ++ jsonEndTag ++
          response.drop (j + jsonEndTag.length) := by
      conv_lhs => rw [hd2]
      rw [e1, e2]
    refine ⟨response.take i,
      (response.take j).drop (i + jsonStartTag.length),
      response.drop (j + jsonEndTag.length), ?_, ?_⟩
    · conv_lhs => rw [hd1]
      rw [hmid]
      simp [List.append_assoc]
    · simp only [extractCore, h1, h2, h3]
  · rfl
  · decide
  · decide

/-- Witness for the universal part of C2, at the scenario 2 transcript:
opening marker at index 14, closing marker at index 115, block decoded
to the four-field action. -/
theorem claim_C2_witness :
    ∃ pre mid post,
      scenario2Text.data = pre ++ jsonStartTag ++ mid ++ jsonEndTag ++ post ∧
        extractCore scenario2Text.data =
          (pyStripL (pre ++ post), some scenario2Json) :=
  claim_C2_extract_well_formed.1 scenario2Text.data 14 115 scenario2Json
    rfl rfl rfl

/-! ## Helper lemmas about the dispatch branches -/

theorem bookingBranch_memory (cfg : RelayConfig) (st : TurnState)
    (b : JValue) : (bookingBranch cfg st b).1.memory = st.memory := by
  unfold bookingBranch
  repeat' split
  all_goals rfl

theorem cancelBranch_memory (cfg : RelayConfig) (st : TurnState)
    (c : JValue) : (cancelBranch cfg st c).1.memory = st.memory := by
  unfold cancelBranch
  repeat' split
  all_goals rfl

theorem rescheduleBranch_memory (cfg : RelayConfig) (st : TurnState)
    (r : JValue) : (rescheduleBranch cfg st r).1.memory = st.memory := by
  unfold rescheduleBranch
  repeat' split
  all_goals rfl

/-- The state after one output transcript always carries the raw
transcript appended to memory, whatever the dispatch outcome. -/
theorem processTranscript_memory (cfg : RelayConfig) (st : TurnState)
    (t : String) :
    (processTranscript cfg st t).1.memory =
      st.memory ++ [("assistant", t)] := by
  unfold processTranscript
  repeat' split
  all_goals
    simp [save_memory_entry, bookingBranch_memory, cancelBranch_memory,
      rescheduleBranch_memory]

/-- The trace of one output transcript always begins with the memory
append of the raw transcript. -/
theorem processTranscript_trace_head (cfg : RelayConfig) (st : TurnState)
    (t : String) :
    ((processTranscript cfg st t).2.1).head? =
      some (.saveMemory "assistant" t) := by
  unfold processTranscript
  repeat' split
  all_goals rfl

/-- Claim C1, amended: on an engine event carrying a completed AI
transcript, the relay appends the RAW transcript to conversation
memory as the assistant entry (the cleaned-text append in the source
is commented out), and the first output of that event is exactly that
memory append. -/
theorem claim_C1_raw_transcript_recorded (cfg : RelayConfig)
    (st : TurnState) (t : String) :
    (processEvent cfg st (.responseDone [t])).1.memory =
        st.memory ++ [("assistant", t)] ∧
      ((processEvent cfg st (.responseDone [t])).2.1).head? =
        some (.saveMemory "assistant" t) := by
  have h1 := processTranscript_memory cfg st t
  have h2 := processTranscript_trace_head cfg st t
  unfold processEvent processTranscripts
  cases ho : (processTranscript cfg st t).2.2 <;>
    simp_all [processTranscripts]

/-- Claim C1, counterexample: on the scenario 2 transcript, the text
recorded in conversation memory for the AI turn is the raw transcript,
which is not the cleaned text returned by the extractor, and no memory
append of the cleaned text appears in the trace — the claim that the
recorded text equals the extractor cleaned text is false. -/
theorem claim_C1_counterexample :
    (extract_booking_data scenario2Text).1 ≠ scenario2Text ∧
      (processEvents demoCfg demoState
        [.responseDone [scenario2Text]]).1.memory =
        [("assistant", scenario2Text)] ∧
      OutAction.saveMemory "assistant" (extract_booking_data scenario2Text).1 ∉
        relayTrace demoCfg demoState [.responseDone [scenario2Text]] := by
  refine ⟨by decide, by decide, by decide⟩

/-- Claim C4, amended: the handling pipeline tries the 12-hour
`"h:MM AM/PM"` encoding FIRST and falls back to 24-hour `"HH:MM"`
(the reverse of the claimed order); and when a `booking_confirmed`
block carries a time parsing under neither encoding, no booking-store
call is made, but the failure is not recovered locally: the
`ValueError` escapes the turn-processing loop (the event fold aborts
with the error flag set), instead of degrading to no action. -/
theorem claim_C4_time_order_and_failure :
    (∀ (s : String) (v : PyTime), strptimeIMp s = some v →
      parseActionTime s = some v) ∧
    (∀ s : String, strptimeIMp s = none →
      parseActionTime s = strptimeHM s) ∧
    (∀ (cfg : RelayConfig) (st : TurnState) (t : String)
      (fs bf : List (String × JValue)) (ts : String) (d : PyDate),
      (extract_booking_data t).2 = some (.obj fs) →
      jGet fs "booking_confirmed" = some (.obj bf) →
      parseActionDate bf cfg.now.date = some d →
      jGet bf "time" = some (.str ts) →
      strptimeIMp (pyStrip ts) = none →
      strptimeHM (pyStrip ts) = none →
      processEvent cfg st (.responseDone [t]) =
        ({ st with memory := save_memory_entry st.memory "assistant" t },
         [.saveMemory "assistant" t], true)) := by
  refine ⟨fun s v h => by simp [parseActionTime, h],
    fun s h => by simp [parseActionTime, h],
    fun cfg st t fs bf ts d hext hbc hd ht hip hhm => ?_⟩
  have hne : fs.isEmpty = false := by
    cases fs with
    | nil => simp [jGet] at hbc
    | cons a l => rfl
  have hpt : parseActionTime (pyStrip ts) = none := by
    simp [parseActionTime, hip, hhm]
  unfold processEvent processTranscripts processTranscript
  simp only [hext, jTruthy, hne, Bool.not_false, pyContains, pySubscript,
    hbc, Option.isSome_some, bookingBranch, hd, ht, hpt]
  simp

/-- Witness for C4: the 12-hour encoding wins first on `"2:30 PM"`,
`"14:00"` falls through to the 24-hour fallback, and a block whose
time is `"noon"` makes no store call while the error escapes the
loop. -/
theorem claim_C4_witness :
    parseActionTime "2:30 PM" = some ⟨14, 30⟩ ∧
      parseActionTime "14:00" = strptimeHM "14:00" ∧
      processEvent demoCfg demoState (.responseDone [badTimeText]) =
        ({ demoState with
            memory := save_memory_entry demoState.memory "assistant"
              badTimeText },
         [.saveMemory "assistant" badTimeText], true) :=
  ⟨claim_C4_time_order_and_failure.1 "2:30 PM" ⟨14, 30⟩ rfl,
   claim_C4_time_order_and_failure.2.1 "14:00" rfl,
   claim_C4_time_order_and_failure.2.2 demoCfg demoState badTimeText
     [("booking_confirmed", .obj [("time", .str "noon")])]
     [("time", .str "noon")] "noon" ⟨2025, 3, 10⟩ rfl rfl rfl rfl rfl rfl⟩

/-- Claim C4, counterexample: on a transcript whose action block has
the unparseable time `"noon"`, the event fold aborts with the error
flag set (the `ValueError` escapes the turn-processing loop, so the
following audio event is never processed) — refuting that the failure
degrades to "no action" without raising out of the loop; no
booking-store call is made. -/
theorem claim_C4_counterexample :
    strptimeIMp "noon" = none ∧ strptimeHM "noon" = none ∧
      (processEvents demoCfg demoState
        [.responseDone [badTimeText], .audioDelta "X"]).2.2 = true ∧
      relayTrace demoCfg demoState
        [.responseDone [badTimeText], .audioDelta "X"] =
        [.saveMemory "assistant" badTimeText] := by
  refine ⟨by decide, by decide, by decide, by decide⟩

/-! ## Helper lemmas: the suppression flag and the output trace -/

theorem bookingBranch_flag (cfg : RelayConfig) (st : TurnState)
    (b : JValue) : (bookingBranch cfg st b).1.audio_stopped =
      st.audio_stopped := by
  unfold bookingBranch
  repeat' split
  all_goals rfl

theorem cancelBranch_flag (cfg : RelayConfig) (st : TurnState)
    (c : JValue) : (cancelBranch cfg st c).1.audio_stopped =
      st.audio_stopped := by
  unfold cancelBranch
  repeat' split
  all_goals rfl

theorem rescheduleBranch_flag (cfg : RelayConfig) (st : TurnState)
    (r : JValue) : (rescheduleBranch cfg st r).1.audio_stopped =
      st.audio_stopped := by
  unfold rescheduleBranch
  repeat' split
  all_goals rfl

theorem bookingBranch_no_media (cfg : RelayConfig) (st : TurnState)
    (b : JValue) (sid : Option String) (p : String) :
    OutAction.sendMedia sid p ∉ (bookingBranch cfg st b).2.1 := by
  unfold bookingBranch
  repeat' split
  all_goals simp

theorem cancelBranch_no_media (cfg : RelayConfig) (st : TurnState)
    (c : JValue) (sid : Option String) (p : String) :
    OutAction.sendMedia sid p ∉ (cancelBranch cfg st c).2.1 := by
  unfold cancelBranch
  repeat' split
  all_goals simp

theorem rescheduleBranch_no_media (cfg : RelayConfig) (st : TurnState)
    (r : JValue) (sid : Option String) (p : String) :
    OutAction.sendMedia sid p ∉ (rescheduleBranch cfg st r).2.1 := by
  unfold rescheduleBranch
  repeat' split
  all_goals simp

theorem processTranscript_flag (cfg : RelayConfig) (st : TurnState)
    (t : String) : (processTranscript cfg st t).1.audio_stopped =
      st.audio_stopped := by
  unfold processTranscript
  repeat' split
  all_goals
    simp [bookingBranch_flag, cancelBranch_flag, rescheduleBranch_flag]

theorem processTranscript_no_media (cfg : RelayConfig) (st : TurnState)
    (t : String) (sid : Option String) (p : String) :
    OutAction.sendMedia sid p ∉ (processTranscript cfg st t).2.1 := by
  unfold processTranscript
  repeat' split
  all_goals
    simp [bookingBranch_no_media, cancelBranch_no_media,
      rescheduleBranch_no_media]

theorem processTranscripts_flag (cfg : RelayConfig) (st : TurnState)
    (ts : List String) : (processTranscripts cfg st ts).1.audio_stopped =
      st.audio_stopped := by
  induction ts generalizing st with
  | nil => rfl
  | cons t ts ih =>
    unfold processTranscripts
    cases ho : (processTranscript cfg st t).2.2 <;>
      simp [ho, ih, processTranscript_flag]

theorem processTranscripts_no_media (cfg : RelayConfig) (st : TurnState)
    (ts : List String) (sid : Option String) (p : String) :
    OutAction.sendMedia sid p ∉ (processTranscripts cfg st ts).2.1 := by
  induction ts generalizing st with
  | nil => simp [processTranscripts]
  | cons t ts ih =>
    unfold processTranscripts
    cases ho : (processTranscript cfg st t).2.2 <;>
      simp [ho, ih, processTranscript_no_media]

/-- Once the suppression flag is up, no single event resets it or
forwards a media frame. -/
theorem processEvent_stopped (cfg : RelayConfig) (st : TurnState)
    (e : EngineEvent) (h : st.audio_stopped = true) :
    (processEvent cfg st e).1.audio_stopped = true ∧
      ∀ (sid : Option String) (p : String),
        OutAction.sendMedia sid p ∉ (processEvent cfg st e).2.1 := by
  cases e with
  | inputTranscriptCompleted f =>
    simp only [processEvent]
    split
    · split <;> simp [h]
    · simp [h]
  | responseDone ts =>
    simp [processEvent, processTranscripts_flag, h,
      processTranscripts_no_media]
  | sessionReady => simp [processEvent, h]
  | audioDelta d => simp [processEvent, h]
  | contentDelta d => simp [processEvent, h]
  | speechFinal txt =>
    simp only [processEvent]
    split <;> simp [h]
  | speechStarted item_id ms => simp [processEvent, h]

/-- Once the suppression flag is up, it stays up for the whole rest of
the run and no media frame is ever forwarded again. -/
theorem processEvents_stopped (cfg : RelayConfig) (st : TurnState)
    (es : List EngineEvent) (h : st.audio_stopped = true) :
    (processEvents cfg st es).1.audio_stopped = true ∧
      ∀ (sid : Option String) (p : String),
        OutAction.sendMedia sid p ∉ (processEvents cfg st es).2.1 := by
  induction es generalizing st with
  | nil => simpa [processEvents] using h
  | cons e es ih =>
    obtain ⟨he1, he2⟩ := processEvent_stopped cfg st e h
    unfold processEvents
    cases hb : (processEvent cfg st e).2.2 with
    | false =>
      obtain ⟨ih1, ih2⟩ := ih ((processEvent cfg st e).1) he1
      simp only [hb, Bool.false_eq_true, if_false]
      exact ⟨ih1, fun sid p => by
        simp only [List.mem_append, not_or]
        exact ⟨he2 sid p, ih2 sid p⟩⟩
    | true => simpa [hb] using ⟨he1, he2⟩

/-- Claim C5, amended: suppression triggers only on a content delta
that itself contains a brace, arriving while the accumulated response
text contains the `booking_confirmed` marker — a delta that completes
the marker without a brace does not trigger it; on the trigger a
buffer-clear is emitted at once, and the flag then persists for the
whole remainder of the run (it is never reset at the end of the AI
turn), with no further audio frame forwarded. -/
theorem claim_C5_suppression :
    (∀ (cfg : RelayConfig) (st : TurnState) (d : String),
      st.audio_stopped = false →
      processEvent cfg st (.contentDelta d) =
        (if (strContainsS d "\x7b" || strContainsS d "\x7d") &&
            suppressionHit (st.assistant_response ++ d) then
          ({ st with
              assistant_response := st.assistant_response ++ d,
              audio_stopped := true }, [.sendClear cfg.stream_sid], false)
        else
          ({ st with assistant_response := st.assistant_response ++ d },
            [], false))) ∧
    (∀ (cfg : RelayConfig) (st : TurnState) (es : List EngineEvent),
      st.audio_stopped = true →
      (processEvents cfg st es).1.audio_stopped = true ∧
        ∀ (sid : Option String) (p : String),
          OutAction.sendMedia sid p ∉ (processEvents cfg st es).2.1) := by
  refine ⟨fun cfg st d h => ?_, fun cfg st es h =>
    processEvents_stopped cfg st es h⟩
  unfold processEvent
  simp [h]

/-- Witness for C5: a single delta carrying a brace and the marker
triggers the clear, and from a suppressed state a following audio
delta is not forwarded and the flag stays up. -/
theorem claim_C5_witness :
    processEvent demoCfg demoState
        (.contentDelta "\x7b\"booking_confirmed\":") =
      (if (strContainsS "\x7b\"booking_confirmed\":" "\x7b" ||
            strContainsS "\x7b\"booking_confirmed\":" "\x7d") &&
          suppressionHit ("" ++ "\x7b\"booking_confirmed\":") then
        ({ demoState with
            assistant_response := "" ++ "\x7b\"booking_confirmed\":",
            audio_stopped := true },
          [.sendClear (some "SID")], false)
      else
        ({ demoState with
            assistant_response := "" ++ "\x7b\"booking_confirmed\":" },
          [], false)) ∧
      (processEvents demoCfg ⟨[], [], "", true⟩
          [.audioDelta "F"]).1.audio_stopped = true ∧
      OutAction.sendMedia (some "SID") "F" ∉
        (processEvents demoCfg ⟨[], [], "", true⟩ [.audioDelta "F"]).2.1 :=
  ⟨claim_C5_suppression.1 demoCfg demoState "\x7b\"booking_confirmed\":" rfl,
   (claim_C5_suppression.2 demoCfg ⟨[], [], "", true⟩ [.audioDelta "F"]
     rfl).1,
   (claim_C5_suppression.2 demoCfg ⟨[], [], "", true⟩ [.audioDelta "F"]
     rfl).2 (some "SID") "F"⟩

/-- Claim C5, counterexample: after the deltas `"{"` then
`"booking_confirmed"` the accumulated buffer contains the marker, yet
the flag is not set, no clear was emitted, and a following audio delta
is still forwarded (the second delta carries no brace, so the check is
skipped) — refuting "from the first text-delta after which the buffer
contains the marker"; moreover after a genuine trigger the flag is
still up after the utterance-complete event, refuting the reset at the
end of the AI turn. -/
theorem claim_C5_counterexample :
    suppressionHit ((processEvents demoCfg demoState
        [.contentDelta "\x7b",
         .contentDelta "booking_confirmed"]).1.assistant_response) = true ∧
      (processEvents demoCfg demoState
        [.contentDelta "\x7b",
         .contentDelta "booking_confirmed"]).1.audio_stopped = false ∧
      relayTrace demoCfg demoState
        [.contentDelta "\x7b", .contentDelta "booking_confirmed",
         .audioDelta "FRAME"] = [.sendMedia (some "SID") "FRAME"] ∧
      (processEvents demoCfg demoState
        [.contentDelta "\x7b\"booking_confirmed\":",
         .responseDone ["Done."], .audioDelta "F"]).1.audio_stopped = true ∧
      relayTrace demoCfg demoState
        [.contentDelta "\x7b\"booking_confirmed\":",
         .responseDone ["Done."], .audioDelta "F"] =
        [.sendClear (some "SID"), .saveMemory "assistant" "Done."] := by
  refine ⟨by decide, by decide, by decide, by decide, by decide⟩

/-- The one-step equation of the event fold. -/
theorem processEvents_cons (cfg : RelayConfig) (st : TurnState)
    (e : EngineEvent) (es : List EngineEvent) :
    processEvents cfg st (e :: es) =
      (if (processEvent cfg st e).2.2 then
        ((processEvent cfg st e).1, (processEvent cfg st e).2.1, true)
      else
        ((processEvents cfg (processEvent cfg st e).1 es).1,
         (processEvent cfg st e).2.1 ++
           (processEvents cfg (processEvent cfg st e).1 es).2.1,
         (processEvents cfg (processEvent cfg st e).1 es).2.2)) := rfl

/-- Splitting a run at an error-free prefix. -/
theorem processEvents_append (cfg : RelayConfig) (st : TurnState)
    (xs ys : List EngineEvent) (h : (processEvents cfg st xs).2.2 = false) :
    processEvents cfg st (xs ++ ys) =
      ((processEvents cfg (processEvents cfg st xs).1 ys).1,
       (processEvents cfg st xs).2.1 ++
         (processEvents cfg (processEvents cfg st xs).1 ys).2.1,
       (processEvents cfg (processEvents cfg st xs).1 ys).2.2) := by
  induction xs generalizing st with
  | nil => simp [processEvents]
  | cons e es ih =>
    have hb : (processEvent cfg st e).2.2 = false := by
      by_contra hb
      rw [processEvents_cons, if_pos (by simpa using hb)] at h
      simp at h
    have h2 : (processEvents cfg (processEvent cfg st e).1 es).2.2 =
        false := by
      rw [processEvents_cons, if_neg (by simp [hb])] at h
      simpa using h
    rw [List.cons_append, processEvents_cons, if_neg (by simp [hb]),
      ih _ h2, processEvents_cons, if_neg (by simp [hb])]
    simp [List.append_assoc]

/-- Claim C6: on a speech-started (interruption) event after any
error-free prefix, the relay emits the truncate-response instruction
at the reported audio offset and then the buffer-clear signal, and
both precede every output of every later event — in particular every
later forwarded audio frame; the loop continues at once with no wait
for an engine acknowledgment. -/
theorem claim_C6_interruption (cfg : RelayConfig) (st : TurnState)
    (pre post : List EngineEvent) (item_id : String) (ms : Nat)
    (h : (processEvents cfg st pre).2.2 = false) :
    relayTrace cfg st (pre ++ .speechStarted item_id ms :: post) =
      relayTrace cfg st pre ++
        .sendTruncate item_id ms :: .sendClear cfg.stream_sid ::
          relayTrace cfg (processEvents cfg st pre).1 post := by
  unfold relayTrace
  rw [processEvents_append cfg st pre (.speechStarted item_id ms :: post) h]
  simp [processEvents, processEvent]

/-- Witness for C6: an audio frame, then an interruption at offset
250, then another audio frame — the truncate and the clear land
between the two forwarded frames. -/
theorem claim_C6_witness :
    relayTrace demoCfg demoState
        ([.audioDelta "A"] ++ .speechStarted "it1" 250 :: [.audioDelta "B"]) =
      relayTrace demoCfg demoState [.audioDelta "A"] ++
        .sendTruncate "it1" 250 :: .sendClear (some "SID") ::
          relayTrace demoCfg
            (processEvents demoCfg demoState [.audioDelta "A"]).1
            [.audioDelta "B"] :=
  claim_C6_interruption demoCfg demoState [.audioDelta "A"]
    [.audioDelta "B"] "it1" 250 (by decide)

/-- Claim C8: for an assistant open 09:00 to 17:00 with 30-minute
slots, Monday enabled, an empty booking store, and "today" the Monday
2025-03-10, the availability map decodes as configured, the slot
partition puts "9:00 AM" among the available slots with no booked
slot, and the generated instruction text lists "9:00 AM" among the
available slots and the literal word "None" as the booked-slots
list. -/
theorem claim_C8_monday_open_slots :
    jsonLoads (demoAssistant.available_days.getD "") =
        some (.obj demoAvailFields) ∧
      (promptSlots demoAssistant [] demoAvailFields
        demoNow.date).isSome = true ∧
      "9:00 AM" ∈ ((promptSlots demoAssistant [] demoAvailFields
        demoNow.date).getD ([], [], [])).2.2 ∧
      ((promptSlots demoAssistant [] demoAvailFields
        demoNow.date).getD ([], [], [])).2.1 = [] ∧
      joinOrNone (((promptSlots demoAssistant [] demoAvailFields
        demoNow.date).getD ([], [], [])).2.1) = "None" ∧
      (generate_prompt "[]" (some demoAssistant) none none []
        demoNow).isSome = true ∧
      strContainsS ((generate_prompt "[]" (some demoAssistant) none none []
          demoNow).getD "") "Available slots today: 9:00 AM" = true ∧
      strContainsS ((generate_prompt "[]" (some demoAssistant) none none []
          demoNow).getD "") "Booked slots today: None." = true := by
  refine ⟨rfl, by decide, by decide, by decide, by decide, by decide,
    by decide, by decide⟩

/-- Claim C9, counterexample: with a booking at 14:00 today in the
store, the booked-slots list of the next assembly is `["2:00 PM"]` —
the label "14:00" does not appear in it, and the rendered booked-slots
text of the instruction is "2:00 PM", which does not contain "14:00":
the claimed label is refuted. -/
theorem claim_C9_counterexample :
    ((promptSlots demoAssistant store14 demoAvailFields
        demoNow.date).getD ([], [], [])).2.1 = ["2:00 PM"] ∧
      "14:00" ∉ ((promptSlots demoAssistant store14 demoAvailFields
        demoNow.date).getD ([], [], [])).2.1 ∧
      joinOrNone (((promptSlots demoAssistant store14 demoAvailFields
        demoNow.date).getD ([], [], [])).2.1) = "2:00 PM" ∧
      strContainsS (joinOrNone (((promptSlots demoAssistant store14
          demoAvailFields demoNow.date).getD ([], [], [])).2.1)) "14:00" =
        false := by
  refine ⟨by decide, by decide, by decide, by decide⟩

/-- Claim C9, amended: the booking held at 14:00 today is partitioned
into the booked side of the next assembly under its 12-hour label
"2:00 PM": that label appears in the booked-slots list (and in the
booked-slots line of the instruction text) and is excluded from the
available-slots list (the rendered available line carries every other
slot of the day). -/
theorem claim_C9_booked_slot_partition :
    (promptSlots demoAssistant store14 demoAvailFields
        demoNow.date).isSome = true ∧
      "2:00 PM" ∈ ((promptSlots demoAssistant store14 demoAvailFields
        demoNow.date).getD ([], [], [])).2.1 ∧
      "2:00 PM" ∉ ((promptSlots demoAssistant store14 demoAvailFields
        demoNow.date).getD ([], [], [])).2.2 ∧
      (generate_prompt "[]" (some demoAssistant) none none store14
        demoNow).isSome = true ∧
      strContainsS ((generate_prompt "[]" (some demoAssistant) none none
          store14 demoNow).getD "") "Booked slots today: 2:00 PM." = true ∧
      strContainsS ((generate_prompt "[]" (some demoAssistant) none none
          store14 demoNow).getD "")
        "Available slots today: 9:00 AM, 9:30 AM, 10:00 AM, 10:30 AM, 11:00 AM, 11:30 AM, 12:00 PM, 12:30 PM, 1:00 PM, 1:30 PM, 2:30 PM, 3:00 PM, 3:30 PM, 4:00 PM, 4:30 PM." = true := by
  refine ⟨by decide, by decide, by decide, by decide, by decide, by decide⟩

end VocalHost
